import Mathlib

set_option maxHeartbeats 1000000
set_option maxRecDepth 20000

/-!
Shallow embedding of `src/app/db.py` (module `app.db`): database
initialization (`init_db`) and session lifecycle helpers (`session_scope`,
`get_db`).

Modelling choices, traceable line by line to the source:

* A SQLAlchemy `Session` is modelled by `Sess`: a buffer of pending writes
  (persisted to the backing store only by an explicit `commit`) and a
  lifecycle state (`active`, `committed`, `rolledBack`, `closed`).
* The backing store seen by sessions is a `List Nat` of persisted writes.
* The caller's block handed to a scope is abstracted as a list of session
  operations (`CallerOp.write`, `CallerOp.commit`) followed by either normal
  completion or a raised exception; exceptions are identified by a `Nat`
  token so "re-raises the original error unchanged" is value equality.
* Each scope records the session-lifecycle calls issued by the scope body
  itself (the lines of `session_scope` / `get_db`, not the caller's block)
  as a `List SessionEvent`, in order.
* `init_db` acts on a `Store` (which schema objects exist in the backing
  store) under a `DbEnv` of capabilities (whether `CREATE EXTENSION` /
  `CREATE INDEX` would succeed), returning the final store, the DDL
  statements issued, and the raised error if any.  In the source,
  `vector_available` is `True` on every non-raising exit of the first
  transaction (lines 33-54), so the `if vector_available` guard on line 64
  is taken on every path that reaches it; the model reflects the resulting
  control flow.
-/

namespace RagDb

/-- Lifecycle states of a session, per the per-Session state machine. -/
inductive SessState
  | active
  | committed
  | rolledBack
  | closed
  deriving DecidableEq

/-- A SQLAlchemy session: pending (uncommitted) writes and lifecycle state. -/
structure Sess where
  pending : List Nat
  state : SessState
  deriving DecidableEq

/-- `SessionLocal()`: a fresh session with no pending writes. -/
def Sess.new : Sess := ⟨[], SessState.active⟩

/-- A caller-issued write on the session: buffered until commit. -/
def Sess.write (s : Sess) (w : Nat) : Sess := { s with pending := s.pending ++ [w] }

/-- `session.commit()`: flush pending writes to the store. -/
def commitSess (db : List Nat) (s : Sess) : List Nat × Sess :=
  (db ++ s.pending, ⟨[], SessState.committed⟩)

/-- `session.rollback()`: discard pending writes. -/
def rollbackSess (_s : Sess) : Sess := ⟨[], SessState.rolledBack⟩

/-- `session.close()`: release the underlying connection. -/
def closeSess (s : Sess) : Sess := { s with state := SessState.closed }

/-- An operation performed by the caller's block on the yielded session. -/
inductive CallerOp
  | write (w : Nat)
  | commit
  deriving DecidableEq

/-- Run the caller's block operations on the store and session. -/
def runOps : List CallerOp → List Nat × Sess → List Nat × Sess
  | [], st => st
  | CallerOp.write w :: rest, (db, s) => runOps rest (db, s.write w)
  | CallerOp.commit :: rest, (db, s) => runOps rest (commitSess db s)

/-- A session-lifecycle call issued by the scope body itself. -/
inductive SessionEvent
  | commit
  | rollback
  | close
  deriving DecidableEq

/-- Result of running a scope: final store, final session, the lifecycle
calls issued by the scope body in order, and the scope's outcome. -/
structure ScopeResult where
  db : List Nat
  sess : Sess
  events : List SessionEvent
  outcome : Except Nat Unit

/-- `session_scope` (src/app/db.py lines 91-111): yield the session to the
caller's block (`ops` then `blockErr`); on a block exception roll back and
re-raise; otherwise commit (which may itself raise `commitErr`, caught by
the same `except` clause: roll back and re-raise); always close in
`finally`. -/
def session_scope (ops : List CallerOp) (blockErr : Option Nat) (commitErr : Option Nat)
    (db : List Nat) : ScopeResult :=
  let r1 := runOps ops (db, Sess.new)
  match blockErr with
  | some e =>
      ⟨r1.1, closeSess (rollbackSess r1.2),
        [SessionEvent.rollback, SessionEvent.close], Except.error e⟩
  | none =>
      match commitErr with
      | some e =>
          ⟨r1.1, closeSess (rollbackSess r1.2),
            [SessionEvent.commit, SessionEvent.rollback, SessionEvent.close], Except.error e⟩
      | none =>
          let r2 := commitSess r1.1 r1.2
          ⟨r2.1, closeSess r2.2, [SessionEvent.commit, SessionEvent.close], Except.ok ()⟩

/-- `get_db` (src/app/db.py lines 114-127): yield the session to the
caller's block; no `except` clause, so any block exception propagates
unchanged; the only scope-issued call is `db.close()` in `finally`. -/
def get_db (ops : List CallerOp) (blockErr : Option Nat) (db : List Nat) : ScopeResult :=
  let r1 := runOps ops (db, Sess.new)
  match blockErr with
  | some e => ⟨r1.1, closeSess r1.2, [SessionEvent.close], Except.error e⟩
  | none => ⟨r1.1, closeSess r1.2, [SessionEvent.close], Except.ok ()⟩

/-- Which schema objects exist in the backing store. -/
structure Store where
  hasVector : Bool
  tables : Bool
  hasIndex : Bool
  deriving DecidableEq

/-- Environment capabilities: whether the DDL the store lacks would succeed. -/
structure DbEnv where
  extCreatable : Bool
  indexCreatable : Bool
  deriving DecidableEq

/-- A DDL/query statement issued by `init_db` (attempted, even if it fails). -/
inductive Stmt
  | checkExtension
  | createExtension
  | createTables
  | checkIndexGuard
  | createIndex
  deriving DecidableEq

/-- The error raised by `init_db` when pgvector cannot be enabled. -/
inductive InitError
  | pgvectorUnavailable (msg : String)
  deriving DecidableEq

/-- Verbatim message of the `RuntimeError` raised at src/app/db.py lines 46-50. -/
def pgvectorErrorMsg : String :=
  "pgvector extension is not available on the configured database. Enable it (CREATE EXTENSION vector) or point DATABASE_URL to a Postgres instance with pgvector installed."

/-- Result of `init_db`: final store state (after any rollback), the
statements issued, and the raised error if any. -/
structure InitResult where
  store : Store
  stmts : List Stmt
  error : Option InitError

/-- Table- and index-creation steps of `init_db` (src/app/db.py lines
56-88): `Base.metadata.create_all` (idempotent, additive), then the DO
block whose server-side guard creates the ivfflat index only if an index
named idx_chunks_embedding_ivfflat is absent; a failing CREATE INDEX is
rolled back and swallowed (non-fatal). -/
def initTablesAndIndex (env : DbEnv) (s : Store) (pre : List Stmt) : InitResult :=
  let s2 : Store := { s with tables := true }
  let pre2 := pre ++ [Stmt.createTables]
  if s2.hasIndex then
    ⟨s2, pre2 ++ [Stmt.checkIndexGuard], none⟩
  else if env.indexCreatable then
    ⟨{ s2 with hasIndex := true }, pre2 ++ [Stmt.checkIndexGuard, Stmt.createIndex], none⟩
  else
    ⟨s2, pre2 ++ [Stmt.checkIndexGuard, Stmt.createIndex], none⟩

/-- `init_db` (src/app/db.py lines 25-88).  First transaction: check
`pg_extension` for 'vector'; if absent attempt `CREATE EXTENSION`; on
failure raise the descriptive `RuntimeError`, the outer `except` rolls the
transaction back (store unchanged) and re-raises, so table creation is
never reached.  Otherwise proceed to table and index creation. -/
def init_db (env : DbEnv) (s : Store) : InitResult :=
  if s.hasVector then
    initTablesAndIndex env s [Stmt.checkExtension]
  else if env.extCreatable then
    initTablesAndIndex env { s with hasVector := true }
      [Stmt.checkExtension, Stmt.createExtension]
  else
    ⟨s, [Stmt.checkExtension, Stmt.createExtension],
      some (InitError.pgvectorUnavailable pgvectorErrorMsg)⟩

/-- Verbatim text of the index-creation statement issued by `init_db`
(src/app/db.py lines 70-81), whitespace-normalized per line. -/
def createIndexSQL : String :=
  "DO $$\nBEGIN\n    IF NOT EXISTS (\n        SELECT 1 FROM pg_indexes WHERE indexname = 'idx_chunks_embedding_ivfflat'\n    ) THEN\n        CREATE INDEX idx_chunks_embedding_ivfflat\n        ON chunks USING ivfflat (embedding vector_cosine_ops)\n        WITH (lists = 100);\n    END IF;\nEND$$;"

/-- Whether `sub` is a leading segment of `hay`. -/
def charsPrefix : List Char → List Char → Bool
  | [], _ => true
  | _ :: _, [] => false
  | a :: as, b :: bs => a == b && charsPrefix as bs

/-- Whether `sub` occurs contiguously inside `hay`. -/
def charsContains (hay sub : List Char) : Bool :=
  match hay with
  | [] => sub.isEmpty
  | _ :: t => charsPrefix sub hay || charsContains t sub

/-- Whether string `sub` occurs as a contiguous substring of `hay`. -/
def strContainsSub (hay sub : String) : Bool :=
  charsContains hay.data sub.data

theorem runOps_no_commit (ops : List CallerOp) (db : List Nat) (s : Sess)
    (h : CallerOp.commit ∉ ops) : (runOps ops (db, s)).1 = db := by
  induction ops generalizing s with
  | nil => rfl
  | cons op rest ih =>
      cases op with
      | write w =>
          simp only [runOps]
          exact ih _ (fun hm => h (List.mem_cons_of_mem _ hm))
      | commit => exact absurd (List.mem_cons_self _ _) h


/-- Claim C1: for every exception raised by the caller's block inside
`session_scope`, the scope rolls back, re-raises the original error
unchanged, and closes the session exactly once (the issued calls are
exactly rollback then one close). -/
theorem session_scope_block_error_rolls_back (ops : List CallerOp) (e : Nat)
    (commitErr : Option Nat) (db : List Nat) :
    (session_scope ops (some e) commitErr db).outcome = Except.error e ∧
    (session_scope ops (some e) commitErr db).events =
      [SessionEvent.rollback, SessionEvent.close] ∧
    (session_scope ops (some e) commitErr db).sess.state = SessState.closed := by
  exact ⟨rfl, rfl, rfl⟩

/-- Claim C2: a `session_scope` whose block completes without error issues
exactly one commit and then exactly one close, in that order, never rolls
back, and reports success. -/
theorem session_scope_success_commits_then_closes (ops : List CallerOp) (db : List Nat) :
    (session_scope ops none none db).events = [SessionEvent.commit, SessionEvent.close] ∧
    SessionEvent.rollback ∉ (session_scope ops none none db).events ∧
    (session_scope ops none none db).outcome = Except.ok () ∧
    (session_scope ops none none db).sess.state = SessState.closed := by
  refine ⟨rfl, ?_, rfl, rfl⟩
  intro hmem
  simp [session_scope] at hmem

/-- Claim C10: in `session_scope`, when the block succeeds but the commit
itself raises, the scope rolls back, propagates the commit exception, and
still closes the session; the store is left as the block left it (the
failed commit persists nothing). -/
theorem session_scope_commit_failure_rolls_back (ops : List CallerOp) (ce : Nat)
    (db : List Nat) :
    (session_scope ops none (some ce) db).events =
      [SessionEvent.commit, SessionEvent.rollback, SessionEvent.close] ∧
    (session_scope ops none (some ce) db).outcome = Except.error ce ∧
    (session_scope ops none (some ce) db).sess.state = SessState.closed ∧
    (session_scope ops none (some ce) db).db = (runOps ops (db, Sess.new)).1 := by
  exact ⟨rfl, rfl, rfl, rfl⟩

/-- Claim C3 (counterexample): a failing block inside `get_db` re-raises
the error and closes the session, but `get_db` issues no rollback and the
session never passes through the rolled-back state, contradicting the
claim that the scope rolls back before closing. -/
theorem get_db_error_no_rollback_counterexample :
    (get_db [] (some 7) []).outcome = Except.error 7 ∧
    SessionEvent.rollback ∉ (get_db [] (some 7) []).events ∧
    (get_db [] (some 7) []).sess.state ≠ SessState.rolledBack := by
  refine ⟨rfl, by decide, by decide⟩

/-- Claim C3 (amended): for every failure raised during an active `get_db`
scope, the original error re-raises unchanged and the session is closed
(exactly one close is issued); `get_db` performs no rollback of its own,
so the session passes from active directly to closed. -/
theorem get_db_error_reraises_and_closes (ops : List CallerOp) (e : Nat) (db : List Nat) :
    (get_db ops (some e) db).outcome = Except.error e ∧
    (get_db ops (some e) db).events = [SessionEvent.close] ∧
    SessionEvent.rollback ∉ (get_db ops (some e) db).events ∧
    (get_db ops (some e) db).sess.state = SessState.closed := by
  refine ⟨rfl, rfl, ?_, rfl⟩
  intro hmem
  simp [get_db] at hmem

/-- Claim C9: `get_db` never commits implicitly: if the caller's block
performs writes but never commits, the store is unchanged when the scope
finishes, yet the session is still closed (one close issued), regardless
of whether the block succeeded or raised. -/
theorem get_db_no_implicit_commit (ops : List CallerOp) (blockErr : Option Nat)
    (db : List Nat) (h : CallerOp.commit ∉ ops) :
    (get_db ops blockErr db).db = db ∧
    (get_db ops blockErr db).events = [SessionEvent.close] ∧
    (get_db ops blockErr db).sess.state = SessState.closed := by
  cases blockErr with
  | none => exact ⟨runOps_no_commit ops db Sess.new h, rfl, rfl⟩
  | some e => exact ⟨runOps_no_commit ops db Sess.new h, rfl, rfl⟩

/-- Witness for C9 at a concrete input: one uncommitted write, no error. -/
theorem get_db_no_implicit_commit_witness :
    CallerOp.commit ∉ [CallerOp.write 5] ∧
    (get_db [CallerOp.write 5] none []).db = [] ∧
    (get_db [CallerOp.write 5] none []).events = [SessionEvent.close] ∧
    (get_db [CallerOp.write 5] none []).sess.state = SessState.closed :=
  ⟨by decide,
    (get_db_no_implicit_commit [CallerOp.write 5] none [] (by decide)).1,
    (get_db_no_implicit_commit [CallerOp.write 5] none [] (by decide)).2.1,
    (get_db_no_implicit_commit [CallerOp.write 5] none [] (by decide)).2.2⟩

/-- Claim C4: if the vector extension is absent and creating it fails,
`init_db` raises the descriptive configuration error, the store is
unchanged (rolled back), and neither table creation nor index creation is
ever issued. -/
theorem init_db_extension_failure_fatal (env : DbEnv) (s : Store)
    (h1 : s.hasVector = false) (h2 : env.extCreatable = false) :
    (init_db env s).error = some (InitError.pgvectorUnavailable pgvectorErrorMsg) ∧
    (init_db env s).store = s ∧
    Stmt.createTables ∉ (init_db env s).stmts ∧
    Stmt.createIndex ∉ (init_db env s).stmts := by
  simp [init_db, h1, h2]

/-- Witness for C4: empty store, extension creation impossible. -/
theorem init_db_extension_failure_fatal_witness :
    (⟨false, false, false⟩ : Store).hasVector = false ∧
    (⟨false, false⟩ : DbEnv).extCreatable = false ∧
    (init_db ⟨false, false⟩ ⟨false, false, false⟩).error =
      some (InitError.pgvectorUnavailable pgvectorErrorMsg) ∧
    Stmt.createTables ∉ (init_db ⟨false, false⟩ ⟨false, false, false⟩).stmts :=
  ⟨rfl, rfl,
    (init_db_extension_failure_fatal ⟨false, false⟩ ⟨false, false, false⟩ rfl rfl).1,
    (init_db_extension_failure_fatal ⟨false, false⟩ ⟨false, false, false⟩ rfl rfl).2.2.1⟩

/-- Claim C5: if the extension step succeeds and table creation succeeds
but index creation fails, `init_db` swallows the failure and returns
normally: no error is reported, tables exist, and the index does not. -/
theorem init_db_index_failure_nonfatal (env : DbEnv) (s : Store)
    (h0 : s.hasVector = true ∨ env.extCreatable = true)
    (h1 : s.hasIndex = false) (h2 : env.indexCreatable = false) :
    (init_db env s).error = none ∧
    (init_db env s).store.tables = true ∧
    (init_db env s).store.hasIndex = false := by
  rcases s with ⟨hv, tb, hi⟩
  rcases env with ⟨ec, ic⟩
  cases hv <;> cases ec <;> simp_all [init_db, initTablesAndIndex]

/-- Witness for C5: extension already present, index creation failing. -/
theorem init_db_index_failure_nonfatal_witness :
    ((⟨true, false, false⟩ : Store).hasVector = true ∨
      (⟨false, false⟩ : DbEnv).extCreatable = true) ∧
    (init_db ⟨false, false⟩ ⟨true, false, false⟩).error = none ∧
    (init_db ⟨false, false⟩ ⟨true, false, false⟩).store.hasIndex = false :=
  ⟨Or.inl rfl,
    (init_db_index_failure_nonfatal ⟨false, false⟩ ⟨true, false, false⟩
      (Or.inl rfl) rfl rfl).1,
    (init_db_index_failure_nonfatal ⟨false, false⟩ ⟨true, false, false⟩
      (Or.inl rfl) rfl rfl).2.2⟩

/-- Claim C6: `init_db` is idempotent: whenever one call succeeds, a second
call on the resulting store also succeeds, leaves the store unchanged, and
re-creates no extension. -/
theorem init_db_idempotent (env : DbEnv) (s : Store)
    (h : (init_db env s).error = none) :
    (init_db env (init_db env s).store).error = none ∧
    (init_db env (init_db env s).store).store = (init_db env s).store ∧
    Stmt.createExtension ∉ (init_db env (init_db env s).store).stmts := by
  rcases s with ⟨hv, tb, hi⟩
  rcases env with ⟨ec, ic⟩
  cases hv <;> cases ec <;> cases ic <;> cases hi <;>
    simp_all [init_db, initTablesAndIndex]

/-- Witness for C6: empty store, everything creatable. -/
theorem init_db_idempotent_witness :
    (init_db ⟨true, true⟩ ⟨false, false, false⟩).error = none ∧
    (init_db ⟨true, true⟩ (init_db ⟨true, true⟩ ⟨false, false, false⟩).store).error = none ∧
    (init_db ⟨true, true⟩ (init_db ⟨true, true⟩ ⟨false, false, false⟩).store).store =
      (init_db ⟨true, true⟩ ⟨false, false, false⟩).store :=
  ⟨rfl,
    (init_db_idempotent ⟨true, true⟩ ⟨false, false, false⟩ rfl).1,
    (init_db_idempotent ⟨true, true⟩ ⟨false, false, false⟩ rfl).2.1⟩

/-- Claim C7: whenever `init_db` returns normally, the vector extension is
registered and the declared tables exist in the final store. -/
theorem init_db_success_guarantees (env : DbEnv) (s : Store)
    (h : (init_db env s).error = none) :
    (init_db env s).store.hasVector = true ∧
    (init_db env s).store.tables = true := by
  rcases s with ⟨hv, tb, hi⟩
  rcases env with ⟨ec, ic⟩
  cases hv <;> cases ec <;> cases ic <;> cases hi <;>
    simp_all [init_db, initTablesAndIndex]

/-- Witness for C7: extension present, index creatable. -/
theorem init_db_success_guarantees_witness :
    (init_db ⟨true, true⟩ ⟨true, false, false⟩).error = none ∧
    (init_db ⟨true, true⟩ ⟨true, false, false⟩).store.hasVector = true ∧
    (init_db ⟨true, true⟩ ⟨true, false, false⟩).store.tables = true :=
  ⟨rfl,
    (init_db_success_guarantees ⟨true, true⟩ ⟨true, false, false⟩ rfl).1,
    (init_db_success_guarantees ⟨true, true⟩ ⟨true, false, false⟩ rfl).2⟩

/-- Claim C8: `init_db` attempts the CREATE INDEX only when the index is
absent from the store, and the statement it issues creates exactly the
index idx_chunks_embedding_ivfflat, using the ivfflat method with the
cosine-distance operator class over chunks.embedding, with lists = 100,
guarded server-side by an existence check on that index name. -/
theorem init_db_index_statement (env : DbEnv) (s : Store)
    (h : Stmt.createIndex ∈ (init_db env s).stmts) :
    s.hasIndex = false ∧
    strContainsSub createIndexSQL "CREATE INDEX idx_chunks_embedding_ivfflat" = true ∧
    strContainsSub createIndexSQL
      "ON chunks USING ivfflat (embedding vector_cosine_ops)" = true ∧
    strContainsSub createIndexSQL "WITH (lists = 100)" = true ∧
    strContainsSub createIndexSQL "IF NOT EXISTS" = true ∧
    strContainsSub createIndexSQL
      "SELECT 1 FROM pg_indexes WHERE indexname = 'idx_chunks_embedding_ivfflat'" = true := by
  refine ⟨?_, by decide, by decide, by decide, by decide, by decide⟩
  rcases s with ⟨hv, tb, hi⟩
  rcases env with ⟨ec, ic⟩
  cases hv <;> cases ec <;> cases ic <;> cases hi <;>
    simp_all [init_db, initTablesAndIndex]

/-- Witness for C8: empty store, everything creatable: the index statement
is issued. -/
theorem init_db_index_statement_witness :
    Stmt.createIndex ∈ (init_db ⟨true, true⟩ ⟨false, false, false⟩).stmts ∧
    (⟨false, false, false⟩ : Store).hasIndex = false ∧
    strContainsSub createIndexSQL "WITH (lists = 100)" = true :=
  ⟨by decide,
    (init_db_index_statement ⟨true, true⟩ ⟨false, false, false⟩ (by decide)).1,
    (init_db_index_statement ⟨true, true⟩ ⟨false, false, false⟩ (by decide)).2.2.2.1⟩

end RagDb
